import Mathlib

/-!
Shallow embedding of `src/claude-bridge-lambda/lambda_function.py`.

The AWS collaborators (DynamoDB `Users` and `Projects` tables, the S3
bucket `project-conversation-context`, and the Anthropic completion
client) are modelled as explicit state plus a fault-injection
environment `Env`: each boolean flag says whether the corresponding
external call raises `ClientError` (or, for the completion client, any
exception) during the invocation.  Stateful operations return the
post-state together with an `Except String` outcome, mirroring Python
exceptions: an `.error` result is a raised exception, and the returned
state holds whatever side effects happened before the raise.
-/

/-- A stored conversation message: `{"role": ..., "content": ..., "timestamp": ...}`
as appended by `lambda_handler`.  Timestamps are modelled as naturals. -/
structure Message where
  role : String
  content : String
  timestamp : Nat
deriving Repr, DecidableEq

/-- A message projected for the completion call: `{"role": ..., "content": ...}`
as built in `generate_response`. -/
structure ClaudeMessage where
  role : String
  content : String
deriving Repr, DecidableEq

/-- The conversation object stored at `{user_id}/{project_id}/conversation.json`:
a dict whose only used field is `messages`. -/
structure Conversation where
  messages : List Message
deriving Repr, DecidableEq

/-- An item of the `Users` table, as written by `create_user`. -/
structure UserItem where
  userId : String
  email : String
deriving Repr, DecidableEq

/-- An item of the `Projects` table.  `create_project` writes `userId`,
`projectId`, `createdAt`, `updatedAt`; `status` and `conversationLocation`
are optional attributes set only by later `update_item` calls. -/
structure ProjectItem where
  userId : String
  projectId : String
  createdAt : Option Nat
  updatedAt : Option Nat
  status : Option String
  conversationLocation : Option String
deriving Repr, DecidableEq

/-- The invocation event.  The handler reads the keys `email`, `input`
and `project_id`; a `userId` key may be present but is never read. -/
structure Event where
  email : Option String
  userId : Option String
  input : Option String
  project_id : Option String
deriving Repr, DecidableEq

/-- The JSON body of the handler's HTTP-shaped response. -/
inductive ResponseBody where
  | err (msg : String)
  | success (projectId : String) (response : String)
deriving Repr, DecidableEq

/-- The handler's HTTP-shaped response `{statusCode, body}`. -/
structure LambdaResponse where
  statusCode : Nat
  body : ResponseBody
deriving Repr, DecidableEq

/-- The state of the external stores: the `Users` table, the `Projects`
table, and the S3 bucket keyed by object key. -/
structure AWSState where
  users : List UserItem
  projects : List ProjectItem
  s3objects : List (String × Conversation)
deriving Repr, DecidableEq

/-- Fault-injection environment: one flag per external call site saying
whether that call raises during this invocation, plus the completion
text, the two freshly drawn UUIDs, and the current wall-clock time
(`now` models every `datetime.utcnow()` reading taken during this
invocation). -/
structure Env where
  usersScanError : Bool
  usersPutError : Bool
  projectsGetError : Bool
  projectsPutError : Bool
  s3GetError : Bool
  s3PutError : Bool
  projectsUpdateError : Bool
  claudeError : Bool
  claudeText : List ClaudeMessage → String
  freshUserId : String
  freshProjectId : String
  now : Nat

/-- Helper for `wordCount`: counts maximal runs of non-space characters,
the `inWord` flag remembering whether the previous character was inside
a word. -/
def wordCountAux : List Char → Bool → Nat
  | [], _ => 0
  | c :: cs, inWord =>
    if c = ' ' then wordCountAux cs false
    else if inWord then wordCountAux cs true
    else 1 + wordCountAux cs true

/-- Python `len(content.split())`: the number of maximal space-separated
words (empty fragments dropped, as `str.split()` does; `str.split()`
also splits on other whitespace characters, which the contents
considered here do not contain). -/
def wordCount (s : String) : Nat := wordCountAux s.toList false

/-- The size estimate `sum(len(msg['content'].split()) * 1.3)` scaled by
10 to stay in `Nat`: tenths of estimated tokens.  The budget
`max_context_tokens = 3000` is `30000` on this scale. -/
def estTokens10 (c : Conversation) : Nat :=
  (c.messages.map (fun m => wordCount m.content * 13)).sum

/-- `max_context_tokens` from `ProjectGenerator.__init__`, scaled by 10. -/
def maxContextTokens10 : Nat := 30000

/-- The deterministic S3 key `f'{user_id}/{project_id}/conversation.json'`. -/
def s3_key (user_id project_id : String) : String :=
  user_id ++ "/" ++ project_id ++ "/conversation.json"

/-- S3 `put_object`: overwrite the object at `key`. -/
def s3_put (l : List (String × Conversation)) (key : String) (v : Conversation) :
    List (String × Conversation) :=
  (key, v) :: l.filter (fun p => p.1 ≠ key)

/-- `ProjectGenerator.get_user`: scans `Users` filtering on `email`,
returns the first item or `None`; a `ClientError` is caught and also
yields `None`. -/
def get_user (env : Env) (s : AWSState) (email : String) : Option UserItem :=
  if env.usersScanError then none
  else (s.users.filter (fun u => u.email = email)).head?

/-- `ProjectGenerator.create_user`: puts `{'userId': str(uuid4()), 'email': email}`
into `Users`; a `ClientError` is re-raised. -/
def create_user (env : Env) (s : AWSState) (email : String) :
    AWSState × Except String UserItem :=
  let user_item : UserItem := ⟨env.freshUserId, email⟩
  if env.usersPutError then (s, .error "ClientError: Users.put_item")
  else ({ s with users := user_item :: s.users.filter (fun u => u.userId ≠ user_item.userId) },
        .ok user_item)

/-- `ProjectGenerator.get_or_create_user`. -/
def get_or_create_user (env : Env) (s : AWSState) (email : String) :
    AWSState × Except String UserItem :=
  match get_user env s email with
  | some u => (s, .ok u)
  | none => create_user env s email

/-- `ProjectGenerator.get_project`: `get_item` by composite key, returns
the item or `None`; a `ClientError` is caught and also yields `None`. -/
def get_project (env : Env) (s : AWSState) (user_id project_id : String) :
    Option ProjectItem :=
  if env.projectsGetError then none
  else (s.projects.filter (fun p => p.userId = user_id ∧ p.projectId = project_id)).head?

/-- `ProjectGenerator.create_project`: puts an item holding `userId`,
`projectId`, `createdAt`, `updatedAt` (both the current time) — and no
other attribute; a `ClientError` is re-raised. -/
def create_project (env : Env) (s : AWSState) (user_id project_id : String) :
    AWSState × Except String ProjectItem :=
  let project_item : ProjectItem :=
    ⟨user_id, project_id, some env.now, some env.now, none, none⟩
  if env.projectsPutError then (s, .error "ClientError: Projects.put_item")
  else ({ s with projects := project_item ::
            s.projects.filter (fun p => ¬(p.userId = user_id ∧ p.projectId = project_id)) },
        .ok project_item)

/-- `ProjectGenerator.get_or_create_project`. -/
def get_or_create_project (env : Env) (s : AWSState) (user_id project_id : String) :
    AWSState × Except String ProjectItem :=
  match get_project env s user_id project_id with
  | some p => (s, .ok p)
  | none => create_project env s user_id project_id

/-- `ProjectGenerator.get_conversation_context`: `get_object` at the
deterministic key; on `NoSuchKey` returns `{'messages': []}`; any other
`ClientError` is re-raised.  The token-estimation and trimming block in
the source is commented out, so a found conversation is returned as
stored. -/
def get_conversation_context (env : Env) (s : AWSState) (user_id project_id : String) :
    Except String Conversation :=
  if env.s3GetError then .error "ClientError: get_object"
  else
    match (s.s3objects.filter (fun p => p.1 = s3_key user_id project_id)).head? with
    | some p => .ok p.2
    | none => .ok ⟨[]⟩

/-- `ProjectGenerator.append_conversation`: first `put_object` of the
whole conversation JSON, then `update_item` on the project setting
`conversationLocation` and `updatedAt`; a `ClientError` from either call
is re-raised, leaving the side effects already performed in place. -/
def append_conversation (env : Env) (s : AWSState) (user_id : String)
    (project : ProjectItem) (conversation : Conversation) :
    AWSState × Except String Conversation :=
  let project_id := project.projectId
  let key := s3_key user_id project_id
  if env.s3PutError then (s, .error "ClientError: put_object")
  else
    let s1 : AWSState := { s with s3objects := s3_put s.s3objects key conversation }
    if env.projectsUpdateError then (s1, .error "ClientError: Projects.update_item")
    else
      let loc : String := "s3://project-conversation-context/" ++ key
      let upd : ProjectItem → ProjectItem := fun p =>
        if p.userId = user_id ∧ p.projectId = project_id then
          { p with conversationLocation := some loc, updatedAt := some env.now }
        else p
      let s2 : AWSState := { s1 with projects := s1.projects.map upd }
      (s2, .ok conversation)

/-- The message-list projection in `generate_response`: each stored
message reduced to `{"role", "content"}`, in order. -/
def claude_messages_of (c : Conversation) : List ClaudeMessage :=
  c.messages.map (fun m => ⟨m.role, m.content⟩)

/-- `ProjectGenerator.generate_response`: calls the completion client on
the projected message list; any exception is re-raised, otherwise the
first candidate's text is returned. -/
def generate_response (env : Env) (conversation : Conversation) :
    Except String String :=
  if env.claudeError then .error "completion call failed"
  else .ok (env.claudeText (claude_messages_of conversation))

/-- The handler's append of the new user turn to the loaded
conversation (lines 311–317 of the source). -/
def add_user_message (c : Conversation) (user_input : String) (t : Nat) : Conversation :=
  ⟨c.messages ++ [⟨"user", user_input, t⟩]⟩

/-- The handler's append of the assistant turn (lines 322–328). -/
def add_assistant_message (c : Conversation) (text : String) (t : Nat) : Conversation :=
  ⟨c.messages ++ [⟨"assistant", text, t⟩]⟩

/-- The 500-equivalent response built by the top-level `except` clause. -/
def err500 (e : String) : LambdaResponse :=
  ⟨500, .err ("Internal server error: " ++ e)⟩

/-- `lambda_handler`: validation, user and project resolution,
conversation load, completion, commit; every raised exception is caught
at top level and converted to a 500 response, keeping the side effects
performed up to that point. -/
def lambda_handler (env : Env) (s : AWSState) (event : Event) :
    AWSState × LambdaResponse :=
  match event.email with
  | none => (s, ⟨400, .err "email is required"⟩)
  | some email =>
    match event.input with
    | none => (s, ⟨400, .err "user input is required"⟩)
    | some user_input =>
      let project_id := (event.project_id).getD env.freshProjectId
      match get_or_create_user env s email with
      | (s1, .error e) => (s1, err500 e)
      | (s1, .ok user) =>
        match get_or_create_project env s1 user.userId project_id with
        | (s2, .error e) => (s2, err500 e)
        | (s2, .ok project) =>
          match get_conversation_context env s2 user.userId project_id with
          | .error e => (s2, err500 e)
          | .ok conversation =>
            let conv1 := add_user_message conversation user_input env.now
            match generate_response env conv1 with
            | .error e => (s2, err500 e)
            | .ok assistant_response =>
              let conv2 := add_assistant_message conv1 assistant_response env.now
              match append_conversation env s2 user.userId project conv2 with
              | (s3, .error e) => (s3, err500 e)
              | (s3, .ok _) =>
                (s3, ⟨200, .success project_id assistant_response⟩)

/-! ## Concrete fixtures -/

/-- An environment in which every external call succeeds. -/
def envOK : Env :=
  { usersScanError := false, usersPutError := false, projectsGetError := false,
    projectsPutError := false, s3GetError := false, s3PutError := false,
    projectsUpdateError := false, claudeError := false,
    claudeText := fun _ => "assistant says hi",
    freshUserId := "uid-fresh", freshProjectId := "pid-fresh", now := 7 }

/-- The empty initial store state. -/
def st0 : AWSState := ⟨[], [], []⟩

/-- The character list `w w ... w` with `n` single-character words. -/
def wordsList : Nat → List Char
  | 0 => []
  | 1 => ['w']
  | n + 2 => 'w' :: ' ' :: wordsList (n + 1)

/-- A string of `n` space-separated single-character words. -/
def mkWords (n : Nat) : String := String.mk (wordsList n)

theorem wordCountAux_wordsList : ∀ n : Nat, wordCountAux (wordsList n) false = n
  | 0 => rfl
  | 1 => rfl
  | n + 2 => by
    have ih := wordCountAux_wordsList (n + 1)
    simp [wordsList, wordCountAux, ih]
    omega

theorem wordCount_mkWords (n : Nat) : wordCount (mkWords n) = n :=
  wordCountAux_wordsList n

/-- A four-message stored conversation whose estimated size exceeds the
budget, and where dropping the first message alone brings it under. -/
def conv4 : Conversation :=
  ⟨[⟨"user", mkWords 1500, 1⟩, ⟨"assistant", mkWords 300, 2⟩,
    ⟨"user", mkWords 300, 3⟩, ⟨"assistant", mkWords 300, 4⟩]⟩

/-- A store state holding `conv4` at the key for user `u1`, project `p1`. -/
def stBig : AWSState := ⟨[], [], [(s3_key "u1" "p1", conv4)]⟩

theorem estTokens10_conv4 : estTokens10 conv4 = 31200 := by
  simp [estTokens10, conv4, wordCount_mkWords]

theorem estTokens10_conv4_tail : estTokens10 ⟨conv4.messages.drop 1⟩ = 11700 := by
  simp [estTokens10, conv4, wordCount_mkWords]

/-! ## Claim C1 -/

/-- Claim C1, as stated, is false on the code: the token-estimation and
trimming block of `get_conversation_context` is commented out, so for
the stored conversation `conv4` — whose estimated size `3120` exceeds
the budget `3000` and whose first message's removal alone would bring it
under budget — the load returns all four messages unchanged instead of a
transcript starting at the second message. -/
theorem C1_counterexample :
    maxContextTokens10 < estTokens10 conv4 ∧
    estTokens10 ⟨conv4.messages.drop 1⟩ ≤ maxContextTokens10 ∧
    get_conversation_context envOK stBig "u1" "p1" = .ok conv4 ∧
    conv4.messages ≠ conv4.messages.drop 1 := by
  refine ⟨?_, ?_, ?_, ?_⟩
  · rw [estTokens10_conv4]; norm_num [maxContextTokens10]
  · rw [estTokens10_conv4_tail]; norm_num [maxContextTokens10]
  · simp [get_conversation_context, envOK, stBig]
  · intro h
    have := congrArg List.length h
    simp [conv4] at this

/-- Claim C1 amended: the trimming policy is disabled in this variant
(the estimation/trimming block is commented out), so a load that finds a
stored conversation returns it unchanged even when its estimated size —
the sum over messages of word count times 1.3 — exceeds the budget of
3000; no message is removed from the front. -/
theorem C1_no_trimming (env : Env) (s : AWSState) (uid pid : String) (c : Conversation)
    (h1 : env.s3GetError = false)
    (h2 : (s.s3objects.filter (fun p => p.1 = s3_key uid pid)).head? =
      some (s3_key uid pid, c))
    (h3 : maxContextTokens10 < estTokens10 c) :
    get_conversation_context env s uid pid = .ok c := by
  simp [get_conversation_context, h1, h2]

/-- Witness for `C1_no_trimming` at the concrete over-budget store. -/
theorem C1_no_trimming_witness :
    get_conversation_context envOK stBig "u1" "p1" = .ok conv4 :=
  C1_no_trimming envOK stBig "u1" "p1" conv4 rfl (by simp [stBig])
    (by rw [estTokens10_conv4]; norm_num [maxContextTokens10])

/-! ## Claim C2 -/

/-- An environment in which only the `Users` table scan raises. -/
def envScanErr : Env := { envOK with usersScanError := true }

/-- A store that already holds a user record for `a@b.c`. -/
def stUser : AWSState := ⟨[⟨"u-exist", "a@b.c"⟩], [], []⟩

/-- A well-formed event for the existing user and project `p1`. -/
def eventA : Event := ⟨some "a@b.c", none, some "hello", some "p1"⟩

/-- Claim C2, as stated, is false on the code: when the `Users` table
scan raises `ClientError` during the user lookup, `get_user` swallows
the exception and returns `None`, so the handler does not surface a
500-equivalent response — it creates a brand-new user record (despite
one already existing for that email) and completes with status 200. -/
theorem C2_counterexample :
    (get_or_create_user envScanErr stUser "a@b.c").2 = .ok ⟨"uid-fresh", "a@b.c"⟩ ∧
    (lambda_handler envScanErr stUser eventA).2.statusCode = 200 ∧
    (lambda_handler envScanErr stUser eventA).1.users =
      [⟨"uid-fresh", "a@b.c"⟩, ⟨"u-exist", "a@b.c"⟩] := by
  refine ⟨rfl, ?_, ?_⟩ <;> rfl

/-- Claim C2 amended: only an unexpected storage failure during the
conversation fetch is re-raised; a `ClientError` during the user lookup
or the project lookup is caught and treated as not-found, so the flow
proceeds to create a fresh user or project record instead of failing. -/
theorem C2_lookup_failures (env : Env) (s : AWSState) (email uid pid : String)
    (hscan : env.usersScanError = true)
    (hget : env.projectsGetError = true)
    (hs3 : env.s3GetError = true)
    (huput : env.usersPutError = false)
    (hpput : env.projectsPutError = false) :
    get_user env s email = none ∧
    (get_or_create_user env s email).2 = .ok ⟨env.freshUserId, email⟩ ∧
    get_project env s uid pid = none ∧
    (get_or_create_project env s uid pid).2 =
      .ok ⟨uid, pid, some env.now, some env.now, none, none⟩ ∧
    get_conversation_context env s uid pid = .error "ClientError: get_object" := by
  refine ⟨?_, ?_, ?_, ?_, ?_⟩ <;>
    simp [get_user, get_or_create_user, create_user, get_project,
      get_or_create_project, create_project, get_conversation_context,
      hscan, hget, hs3, huput, hpput]

/-- An environment in which the user scan, the project get, and the S3
get all raise. -/
def envLookupErr : Env := { envOK with usersScanError := true, projectsGetError := true, s3GetError := true }

/-- Witness for `C2_lookup_failures` with all three lookups failing. -/
theorem C2_lookup_failures_witness :
    get_user envLookupErr st0 "a@b.c" = none ∧
    (get_or_create_user envLookupErr st0 "a@b.c").2 = .ok ⟨"uid-fresh", "a@b.c"⟩ ∧
    get_project envLookupErr st0 "u1" "p1" = none ∧
    (get_or_create_project envLookupErr st0 "u1" "p1").2 =
      .ok ⟨"u1", "p1", some 7, some 7, none, none⟩ ∧
    get_conversation_context envLookupErr st0 "u1" "p1" =
      .error "ClientError: get_object" :=
  C2_lookup_failures envLookupErr st0 "a@b.c" "u1" "p1" rfl rfl rfl rfl rfl

/-! ## Claim C3 -/

/-- An event carrying `userId` and `input` but no `email` key. -/
def eventUserId : Event := ⟨none, some "u1", some "hello", none⟩

/-- Claim C3, as stated, is false on the code: the handler only accepts
the `email` key as identifier, so the input `{userId: "u1", input:
"hello"}` is rejected with a 400 validation response instead of
producing a 200 response with a generated project id. -/
theorem C3_counterexample :
    lambda_handler envOK st0 eventUserId = (st0, ⟨400, .err "email is required"⟩) := rfl

/-- Claim C3 amended: the required identifier must be supplied under the
`email` key; a payload without it — whatever `userId` it carries — is
rejected by validation with status 400 and the message `email is
required`, with no side effects on any store. -/
theorem C3_email_required (env : Env) (s : AWSState) (event : Event)
    (h : event.email = none) :
    lambda_handler env s event = (s, ⟨400, .err "email is required"⟩) := by
  unfold lambda_handler
  rw [h]

/-- Witness for `C3_email_required` at the `userId`-only event. -/
theorem C3_email_required_witness :
    lambda_handler envOK st0 eventUserId = (st0, ⟨400, .err "email is required"⟩) :=
  C3_email_required envOK st0 eventUserId rfl

/-! ## Claim C4 -/

/-- Claim C4, as stated, is false on the code: `create_project` writes
only `userId`, `projectId`, `createdAt`, `updatedAt` — the created item
carries no `status` attribute at all (status is `none`), not an
`IN_PROGRESS`-equivalent value. -/
theorem C4_counterexample :
    (create_project envOK st0 "u1" "p1").2 =
      .ok ⟨"u1", "p1", some 7, some 7, none, none⟩ ∧
    (ProjectItem.status ⟨"u1", "p1", some 7, some 7, none, none⟩) = none := by
  exact ⟨rfl, rfl⟩

/-- Claim C4 amended: for a (userId, projectId) pair with no existing
record, project creation produces a record whose `createdAt` and
`updatedAt` are both the current timestamp and which has no `status`
field. -/
theorem C4_create_project (env : Env) (s : AWSState) (uid pid : String)
    (h : env.projectsPutError = false) :
    (create_project env s uid pid).2 =
      .ok ⟨uid, pid, some env.now, some env.now, none, none⟩ := by
  simp [create_project, h]

/-- Witness for `C4_create_project` at concrete inputs. -/
theorem C4_create_project_witness :
    (create_project envOK st0 "u1" "p1").2 =
      .ok ⟨"u1", "p1", some 7, some 7, none, none⟩ :=
  C4_create_project envOK st0 "u1" "p1" rfl

/-! ## Claim C5 -/

/-- An environment in which the S3 get raises a `ClientError` other than
`NoSuchKey`. -/
def envS3Err : Env := { envOK with s3GetError := true }

/-- Claim C5: when the conversation blob is absent (the store's
distinguished `NoSuchKey` outcome), load returns a conversation with an
empty message list rather than an error; any other storage failure on
load propagates as a raised error. -/
theorem C5_load_missing (env env2 : Env) (s : AWSState) (uid pid : String)
    (hok : env.s3GetError = false)
    (habsent : (s.s3objects.filter (fun p => p.1 = s3_key uid pid)).head? = none)
    (herr : env2.s3GetError = true) :
    get_conversation_context env s uid pid = .ok ⟨[]⟩ ∧
    get_conversation_context env2 s uid pid = .error "ClientError: get_object" := by
  constructor
  · simp [get_conversation_context, hok, habsent]
  · simp [get_conversation_context, herr]

/-- Witness for `C5_load_missing` on the empty store. -/
theorem C5_load_missing_witness :
    get_conversation_context envOK st0 "u1" "p1" = .ok ⟨[]⟩ ∧
    get_conversation_context envS3Err st0 "u1" "p1" =
      .error "ClientError: get_object" :=
  C5_load_missing envOK envS3Err st0 "u1" "p1" rfl rfl rfl

/-! ## Claim C6 -/

/-- Claim C6: the message sequence handed to the completion service is
exactly each stored message projected to role and content (timestamps
dropped), in original stored order, followed by the new user turn as a
final user entry — nothing filtered, deduplicated, or reordered — and
the completion call receives precisely that list. -/
theorem C6_context_assembly (env : Env) (c : Conversation) (user_input : String)
    (t : Nat) (h : env.claudeError = false) :
    claude_messages_of (add_user_message c user_input t) =
      c.messages.map (fun m => ⟨m.role, m.content⟩) ++ [⟨"user", user_input⟩] ∧
    generate_response env (add_user_message c user_input t) =
      .ok (env.claudeText
        (c.messages.map (fun m => ⟨m.role, m.content⟩) ++ [⟨"user", user_input⟩])) := by
  constructor
  · simp [claude_messages_of, add_user_message]
  · simp [generate_response, claude_messages_of, add_user_message, h]

/-- Witness for `C6_context_assembly` at the spec's own example. -/
theorem C6_context_assembly_witness :
    claude_messages_of (add_user_message ⟨[⟨"user", "a", 1⟩, ⟨"assistant", "b", 2⟩]⟩ "c" 3) =
      [⟨"user", "a"⟩, ⟨"assistant", "b"⟩, ⟨"user", "c"⟩] := by
  have h :=
    (C6_context_assembly envOK ⟨[⟨"user", "a", 1⟩, ⟨"assistant", "b", 2⟩]⟩ "c" 3 rfl).1
  simpa using h

/-! ## Claim C7 -/

/-- Claim C7: saving a conversation for a (userId, projectId) pair and
then loading the same pair returns the saved message sequence — same
roles, contents, and order (trimming is not in play; the size hypothesis
records the claim's proviso). -/
theorem C7_round_trip (env : Env) (s : AWSState) (uid : String)
    (project : ProjectItem) (conv : Conversation)
    (hput : env.s3PutError = false) (hupd : env.projectsUpdateError = false)
    (hget : env.s3GetError = false)
    (hsize : estTokens10 conv ≤ maxContextTokens10) :
    (append_conversation env s uid project conv).2 = .ok conv ∧
    get_conversation_context env (append_conversation env s uid project conv).1
      uid project.projectId = .ok conv := by
  constructor
  · simp [append_conversation, hput, hupd]
  · simp [append_conversation, hput, hupd, get_conversation_context, hget, s3_put]

/-- A two-message conversation small enough never to hit the budget. -/
def convHi : Conversation := ⟨[⟨"user", "hi", 1⟩, ⟨"assistant", "yo there", 2⟩]⟩

/-- The project record the round-trip witness commits against. -/
def projP : ProjectItem := ⟨"u1", "p1", some 7, some 7, none, none⟩

/-- Witness for `C7_round_trip` at a concrete small conversation. -/
theorem C7_round_trip_witness :
    (append_conversation envOK st0 "u1" projP convHi).2 = .ok convHi ∧
    get_conversation_context envOK (append_conversation envOK st0 "u1" projP convHi).1
      "u1" projP.projectId = .ok convHi :=
  C7_round_trip envOK st0 "u1" projP convHi rfl rfl rfl (by decide)

/-! ## Claim C8 -/

/-- Claim C8: the commit writes in a fixed order — the whole-conversation
blob first, then the project record's pointer-and-timestamp update — and
the two are not transactional: when the record update raises after the
blob save succeeded, the raised error propagates, the blob store holds
the new conversation, and the project records are untouched (stale
pointer). -/
theorem C8_commit_order (env : Env) (s : AWSState) (uid : String)
    (project : ProjectItem) (conv : Conversation)
    (hput : env.s3PutError = false) (hupd : env.projectsUpdateError = true) :
    (append_conversation env s uid project conv).2 =
      .error "ClientError: Projects.update_item" ∧
    (append_conversation env s uid project conv).1.s3objects =
      s3_put s.s3objects (s3_key uid project.projectId) conv ∧
    (append_conversation env s uid project conv).1.projects = s.projects := by
  refine ⟨?_, ?_, ?_⟩ <;> simp [append_conversation, hput, hupd]

/-- An environment in which only the project record update raises. -/
def envUpdErr : Env := { envOK with projectsUpdateError := true }

/-- Witness for `C8_commit_order` with the record update failing. -/
theorem C8_commit_order_witness :
    (append_conversation envUpdErr st0 "u1" projP convHi).2 =
      .error "ClientError: Projects.update_item" ∧
    (append_conversation envUpdErr st0 "u1" projP convHi).1.s3objects =
      s3_put st0.s3objects (s3_key "u1" projP.projectId) convHi ∧
    (append_conversation envUpdErr st0 "u1" projP convHi).1.projects = st0.projects :=
  C8_commit_order envUpdErr st0 "u1" projP convHi rfl rfl

/-! ## Claims C9 and C10: handler-level lemmas -/

theorem get_or_create_user_s3objects (env : Env) (s : AWSState) (email : String) :
    (get_or_create_user env s email).1.s3objects = s.s3objects := by
  unfold get_or_create_user create_user
  cases hg : get_user env s email <;> cases hp : env.usersPutError <;> simp [hg, hp]

theorem get_or_create_project_s3objects (env : Env) (s : AWSState)
    (uid pid : String) :
    (get_or_create_project env s uid pid).1.s3objects = s.s3objects := by
  unfold get_or_create_project create_project
  cases hg : get_project env s uid pid <;> cases hp : env.projectsPutError <;>
    simp [hg, hp]

/-- An event whose `email` and `input` are present but empty strings. -/
def eventEmpty : Event := ⟨some "", none, some "", none⟩

/-- Claim C9: validation only tests key presence: with `email` and
`input` both present as empty strings, the handler never returns a
400-equivalent (its outcome is 200 or, on a downstream failure, 500),
and in the all-succeeding run it reaches the storage and completion
layers — a user record is created and a 200 response is returned. -/
theorem C9_presence_only (env : Env) (s : AWSState) (event : Event)
    (he : event.email = some "") (hi : event.input = some "") :
    ((lambda_handler env s event).2.statusCode = 200 ∨
      (lambda_handler env s event).2.statusCode = 500) ∧
    (lambda_handler envOK st0 eventEmpty).2.statusCode = 200 ∧
    (lambda_handler envOK st0 eventEmpty).1.users = [⟨"uid-fresh", ""⟩] := by
  refine ⟨?_, rfl, rfl⟩
  unfold lambda_handler
  rw [he, hi]
  rcases hu : get_or_create_user env s "" with ⟨s1, r1⟩
  cases r1 with
  | error e => simp [hu, err500]
  | ok user =>
    rcases hp : get_or_create_project env s1 user.userId
        ((event.project_id).getD env.freshProjectId) with ⟨s2, r2⟩
    cases r2 with
    | error e => simp [hu, hp, err500]
    | ok project =>
      cases hg : get_conversation_context env s2 user.userId
          ((event.project_id).getD env.freshProjectId) with
      | error e => simp [hu, hp, hg, err500]
      | ok conversation =>
        cases hr : generate_response env
            (add_user_message conversation "" env.now) with
        | error e => simp [hu, hp, hg, hr, err500]
        | ok assistant_response =>
          rcases ha : append_conversation env s2 user.userId project
              (add_assistant_message (add_user_message conversation "" env.now)
                assistant_response env.now) with ⟨s3, r3⟩
          cases r3 with
          | error e => simp [hu, hp, hg, hr, ha, err500]
          | ok c => simp [hu, hp, hg, hr, ha]

/-- Witness for `C9_presence_only` at the empty-values event. -/
theorem C9_presence_only_witness :
    ((lambda_handler envOK st0 eventEmpty).2.statusCode = 200 ∨
      (lambda_handler envOK st0 eventEmpty).2.statusCode = 500) ∧
    (lambda_handler envOK st0 eventEmpty).2.statusCode = 200 ∧
    (lambda_handler envOK st0 eventEmpty).1.users = [⟨"uid-fresh", ""⟩] :=
  C9_presence_only envOK st0 eventEmpty rfl rfl

/-! ## Claim C10 -/

/-- Claim C10: when the completion call fails, the S3 conversation blob
is never written during that invocation — the persisted transcripts are
exactly what they were before — and the handler surfaces a 500; the
appended user turn lives only in memory. -/
theorem C10_no_save_on_completion_failure (env : Env) (s : AWSState) (event : Event)
    (email input : String)
    (he : event.email = some email) (hi : event.input = some input)
    (hc : env.claudeError = true) :
    (lambda_handler env s event).1.s3objects = s.s3objects ∧
    (lambda_handler env s event).2.statusCode = 500 := by
  unfold lambda_handler
  rw [he, hi]
  rcases hu : get_or_create_user env s email with ⟨s1, r1⟩
  have hs1 : s1.s3objects = s.s3objects := by
    have h := get_or_create_user_s3objects env s email
    rw [hu] at h; exact h
  cases r1 with
  | error e => simp [hu, err500, hs1]
  | ok user =>
    rcases hp : get_or_create_project env s1 user.userId
        ((event.project_id).getD env.freshProjectId) with ⟨s2, r2⟩
    have hs2 : s2.s3objects = s.s3objects := by
      have h := get_or_create_project_s3objects env s1 user.userId
        ((event.project_id).getD env.freshProjectId)
      rw [hp] at h; rw [h]; exact hs1
    cases r2 with
    | error e => simp [hu, hp, err500, hs2]
    | ok project =>
      cases hg : get_conversation_context env s2 user.userId
          ((event.project_id).getD env.freshProjectId) with
      | error e => simp [hu, hp, hg, err500, hs2]
      | ok conversation => simp [hu, hp, hg, generate_response, hc, err500, hs2]

/-- An environment in which only the completion call fails. -/
def envClaudeErr : Env := { envOK with claudeError := true }

/-- Witness for `C10_no_save_on_completion_failure` on a well-formed
event with the completion service failing. -/
theorem C10_no_save_witness :
    (lambda_handler envClaudeErr stUser eventA).1.s3objects = stUser.s3objects ∧
    (lambda_handler envClaudeErr stUser eventA).2.statusCode = 500 :=
  C10_no_save_on_completion_failure envClaudeErr stUser eventA "a@b.c" "hello"
    rfl rfl rfl
